import Mathlib

/-!
Shallow embedding of `codar_processing/plotting/plot_nc.py`.

Numeric model: one IEEE double is embedded as `Val := Option ℝ`, where
`none` stands for NaN and `some x` for the finite value `x`.  All the
numpy primitives used by the source (`abs`/`angle` of a complex number,
`sin`, `cos`, `mod`, `clip`, `nanmax`, slicing `[::sub]`, `squeeze`,
`meshgrid`, `linspace`) propagate NaN, which the embedding mirrors by
propagating `none`.  A 2-D numpy array is a `Grid`: explicit row/column
counts plus a total indexing function (only indices below the bounds are
meaningful).  `squeeze` can change the rank of an array, so its result is
the sum type `Arr`.
-/

noncomputable section

/-- One floating-point cell value: `none` models IEEE NaN, `some x` a finite value. -/
abbrev Val := Option ℝ

/-- A rectangular 2-D array with entries in `α`: the shape `(rows, cols)`
together with the entry function.  Entries at indices outside the shape are
irrelevant padding. -/
structure Grid (α : Type) where
  rows : ℕ
  cols : ℕ
  val : ℕ → ℕ → α

/-- Result rank of `numpy.squeeze` on a 2-D array: a 0-d scalar, a 1-d
vector, or an unchanged 2-d grid. -/
inductive Arr (α : Type) where
  | scalar (x : α)
  | vec (n : ℕ) (v : ℕ → α)
  | mat (g : Grid α)

/-- Shape tuple of a (possibly squeezed) array, as numpy reports it. -/
def Arr.shape {α : Type} : Arr α → List ℕ
  | .scalar _ => []
  | .vec n _ => [n]
  | .mat g => [g.rows, g.cols]

/-- Number of elements of a (possibly squeezed) array; a 0-d array has one element. -/
def Arr.size {α : Type} : Arr α → ℕ
  | .scalar _ => 1
  | .vec n _ => n
  | .mat g => g.rows * g.cols

/-- Embedding of `numpy.squeeze` on a 2-D array: every axis of length 1 is
removed (`(1,1) ↦` scalar, `(1,n) ↦ (n,)`, `(m,1) ↦ (m,)`, otherwise unchanged). -/
def Grid.squeeze {α : Type} (g : Grid α) : Arr α :=
  if g.rows = 1 ∧ g.cols = 1 then Arr.scalar (g.val 0 0)
  else if g.rows = 1 then Arr.vec g.cols (fun j => g.val 0 j)
  else if g.cols = 1 then Arr.vec g.rows (fun i => g.val i 0)
  else Arr.mat g

/-- Embedding of the strided slice `a[::s, ::s]` (source line 134 and
lines 149-152): every `s`-th element along each axis, so the new extent on an
axis of length `n` is `⌈n / s⌉ = (n + (s-1)) / s` and entry `(i, j)` of the
result is entry `(i*s, j*s)` of the input.  Meaningful for `s ≥ 1` (numpy
rejects a zero stride). -/
def strideSlice {α : Type} (s : ℕ) (g : Grid α) : Grid α :=
  ⟨(g.rows + (s - 1)) / s, (g.cols + (s - 1)) / s, fun i j => g.val (i * s) (j * s)⟩

/-- Clipping of a single cell, as `numpy.clip(x, lo, hi)` computes it:
`minimum(maximum(x, lo), hi)`.  A NaN input stays NaN, and a NaN upper bound
makes the result NaN (`minimum` propagates NaN); in this pipeline the lower
bound is always a real number, the upper bound may be the NaN produced by
`np.nanmax` on an all-NaN field. -/
def clipV (lo : ℝ) (hi : Val) (x : Val) : Val :=
  match x, hi with
  | some y, some h => some (min (max y lo) h)
  | _, _ => none

/-- Embedding of `numpy.clip` applied elementwise to a 2-D array (source
lines 133-137 before the final `.squeeze()`). -/
def np_clip (g : Grid Val) (lo : ℝ) (hi : Val) : Grid Val :=
  ⟨g.rows, g.cols, fun i j => clipV lo hi (g.val i j)⟩

/-- Embedding of `numpy.ma.masked_invalid` (source lines 115-116) combined
with the `np.asarray` coercion performed inside `oceans.ocfis.uv2spdir`:
masking marks the NaN entries, and `asarray` immediately drops the mask while
keeping the underlying data, in which the invalid entries are still NaN.  The
net effect on the data seen by the decomposer is the identity, with NaN cells
(`none`) still NaN. -/
def masked_invalid (g : Grid Val) : Grid Val := g

/-- Embedding of `numpy.mod(x, m)` for a positive modulus, as used by
`oceans.ocfis.uv2spdir`: the representative of `x` in `[0, m)`, i.e.
`x - m * floor (x / m)`. -/
def nmod (x m : ℝ) : ℝ := x - m * ⌊x / m⌋

/-- Direction, in degrees, that `oceans.ocfis.uv2spdir` assigns to the finite
vector `(a, b)` (with its default `mag = rot = 0`): numpy's
`angle(a + 1j*b, deg=True)` is `arg(a + b*I) * 180 / π` (with `arg 0 = 0`,
matching `np.angle(0) = 0`), and the library returns
`mod(90 - angle, 360)`. -/
def angleDeg (a b : ℝ) : ℝ :=
  nmod (90 - Complex.arg ⟨a, b⟩ * (180 / Real.pi)) 360

/-- Embedding of `oceans.ocfis.uv2spdir(u, v)` (source line 118), an external
library dependency: speed is `np.abs(u + 1j*v) = sqrt(u² + v²)` and the angle
is `angleDeg`; complex `abs` and `angle` propagate NaN, so a NaN in `u` or `v`
makes both outputs NaN.  Output shapes follow the first argument, the source
always passes equal-shape arrays. -/
def uv2spdir (u v : Grid Val) : Grid Val × Grid Val :=
  (⟨u.rows, u.cols, fun i j =>
      match u.val i j, v.val i j with
      | some a, some b => some (angleDeg a b)
      | _, _ => none⟩,
   ⟨u.rows, u.cols, fun i j =>
      match u.val i j, v.val i j with
      | some a, some b => some (Real.sqrt (a ^ 2 + b ^ 2))
      | _, _ => none⟩)

/-- Embedding of `numpy.ones_like` (source line 120): an array of ones with
the shape of the argument — note that it yields `1` even where the argument
is NaN. -/
def ones_like (g : Grid Val) : Grid Val := ⟨g.rows, g.cols, fun _ _ => some 1⟩

/-- Embedding of `oceans.ocfis.spdir2uv(spd, ang, deg=True)` (source lines
119-123), an external library dependency: with the angle converted from
degrees to radians, `u = spd * sin(ang)` and `v = spd * cos(ang)`; `sin` and
`cos` of NaN are NaN. -/
def spdir2uv (spd ang : Grid Val) : Grid Val × Grid Val :=
  (⟨spd.rows, spd.cols, fun i j =>
      match spd.val i j, ang.val i j with
      | some s, some t => some (s * Real.sin (t * (Real.pi / 180)))
      | _, _ => none⟩,
   ⟨spd.rows, spd.cols, fun i j =>
      match spd.val i j, ang.val i j with
      | some s, some t => some (s * Real.cos (t * (Real.pi / 180)))
      | _, _ => none⟩)

/-- First component (the X grid) of `numpy.meshgrid(lon, lat)` (source line
126): shape `(len(lat), len(lon))`, row-constant copies of `lon`. -/
def meshgridX (lon lat : List ℝ) : Grid ℝ :=
  ⟨lat.length, lon.length, fun _ j => lon.getD j 0⟩

/-- Second component (the Y grid) of `numpy.meshgrid(lon, lat)` (source line
126): shape `(len(lat), len(lon))`, column-constant copies of `lat`. -/
def meshgridY (lon lat : List ℝ) : Grid ℝ :=
  ⟨lat.length, lon.length, fun i _ => lat.getD i 0⟩

/-- All non-NaN entries of a grid, in row-major order, as seen by
`np.nanmax`. -/
def Grid.validVals (g : Grid Val) : List ℝ :=
  (List.range g.rows).flatMap (fun i => (List.range g.cols).filterMap (fun j => g.val i j))

/-- Embedding of `np.nanmax` (source line 131): the maximum of the non-NaN
entries; on an all-NaN array numpy warns and returns NaN (`none` here). -/
def nanmax (g : Grid Val) : Val :=
  match g.validVals with
  | [] => none
  | x :: xs => some (xs.foldl max x)

/-- Embedding of `velocity_min = velocity_min or 0` (source line 130), with
Python truthiness of a float/None left operand: `None` and `0.0` are falsy,
every other float is truthy. -/
def resolveVmin (o : Option ℝ) : ℝ :=
  match o with
  | none => 0
  | some x => if x = 0 then 0 else x

/-- Second and third operand of the chain on source line 131:
`np.nanmax(speed) or 15`.  Python truthiness of the numpy scalar: `0.0` is
falsy (so the fixed ceiling `15` is used), any other float — including NaN —
is truthy and is returned unchanged. -/
def orNanmax (speed : Grid Val) : Val :=
  match nanmax speed with
  | some m => if m = 0 then some 15 else some m
  | none => none

/-- Embedding of `velocity_max = velocity_max or np.nanmax(speed) or 15`
(source line 131): a truthy caller-supplied ceiling wins; `None` or `0` falls
through to `np.nanmax(speed) or 15`. -/
def resolveVmax (o : Option ℝ) (speed : Grid Val) : Val :=
  match o with
  | none => orNanmax speed
  | some x => if x = 0 then orNanmax speed else some x

/-- Embedding of `np.linspace(velocity_min, velocity_max, 5)` (source line
163): five values from `lo` to `hi` in steps of `(hi - lo) / 4`.  When the
resolved ceiling is NaN every produced tick is NaN (the numpy step
`delta = (stop-start)/4` is NaN and poisons each entry). -/
def ticksOf (lo : ℝ) (hi : Val) : List Val :=
  match hi with
  | some b => (List.range 5).map (fun i => some (lo + (i : ℝ) * ((b - lo) / 4)))
  | none => List.replicate 5 none

/-- Numeric content of the tick label `f'{s:.2f}'` (source line 165), in
hundredths: formatting a value to two decimal places displays the integer
`round (100 * s)` divided by 100.  (Python rounds the underlying double
half-to-even; no tick in this development falls on a half-hundredth tie, so
`round` agrees.) -/
def fmt2 (x : ℝ) : ℤ := round (100 * x)

/-- Embedding of `ax.set_extent([lon.min()-1, lon.max()+1, lat.min()-1,
lat.max()+1])` (source lines 186-191), applied to the full, unsubsampled 1-D
coordinate arrays.  `ndarray.min` on an empty array raises, modelled as
`none`. -/
def extentOf (lon lat : List ℝ) : Option (ℝ × ℝ × ℝ × ℝ) :=
  match lon, lat with
  | a :: ltl, b :: ttl =>
      some (ltl.foldl min a - 1, ltl.foldl max a + 1, ttl.foldl min b - 1, ttl.foldl max b + 1)
  | _, _ => none

/-- A filesystem path, as a list of components; `parent` is `dropLast`,
mirroring `Path(output_file).parent`. -/
abbrev FsPath := List String

/-- Filesystem and figure side effects of the output sink (source lines
202-206). -/
inductive Effect where
  | createDir (dir : FsPath)
  | savefig (file : FsPath) (dpi : ℕ)
  | closeAll
  deriving DecidableEq

/-- Side effects of the output sink (source lines 202-208): with a
destination, `create_dir(str(Path(output_file).parent))`, then
`plt.savefig(output_file, dpi=150)`, then `plt.close('all')`; with no
destination, no effect at all.  `create_dir` lives in
`codar_processing.src.common`, which is not part of the sources here.
Modelled from the spec: it ensures the containing directory exists, creating
it if necessary. -/
def outputEffects (o : Option FsPath) : List Effect :=
  match o with
  | none => []
  | some p => [Effect.createDir p.dropLast, Effect.savefig p 150, Effect.closeAll]

/-- Everything `plot_common` computes that the claims talk about: resolved
bounds, the decomposer outputs, the meshgrid coordinates, the subsampled
arrays handed to `ax.quiver`, the clipped speed before and after its
`.squeeze()`, the colorbar ticks and labels, the map extent, the output-sink
effects, and whether a live handle is returned. -/
structure PlotResult where
  vmin : ℝ
  vmax : Val
  angle : Grid Val
  speed : Grid Val
  us : Grid Val
  vs : Grid Val
  lons : Grid ℝ
  lats : Grid ℝ
  lonsSub : Grid ℝ
  latsSub : Grid ℝ
  usSub : Grid Val
  vsSub : Grid Val
  speedClippedG : Grid Val
  speedClipped : Arr Val
  ticks : List Val
  tickLabels : List (Option ℤ)
  extent : Option (ℝ × ℝ × ℝ × ℝ)
  effects : List Effect
  returnsHandle : Bool

/-- Embedding of `plot_common` (source lines 100-208) on its
`meshgrid=True` path (the one taken by `plot_totals`; with `meshgrid=False`
the caller's already-2-D coordinates are used directly and nothing else
changes).  The purely decorative arguments (`title`, `time`, `markers`, the
colormap, the figure-size globals) do not influence any modelled output and
are omitted.  Stages, in source order: mask invalid entries (115-116),
decompose with `uv2spdir` (118), rebuild unit vectors with `spdir2uv` of
`np.ones_like(speed)` (119-123), meshgrid the coordinates (125-128), resolve
the velocity bounds (130-131), clip the subsampled speed and squeeze it
(133-137), hand the subsampled arrays plus the clipped speed to `ax.quiver`
(148-156), build the colorbar ticks and two-decimal labels (163-165), set
the extent from the full coordinate arrays (186-191), and run the output
sink (202-208). -/
def plot_common (lon lat : List ℝ) (u v : Grid Val) (output_file : Option FsPath)
    (sub : ℕ) (velocity_min velocity_max : Option ℝ) : PlotResult :=
  let um := masked_invalid u
  let vm := masked_invalid v
  let dm := uv2spdir um vm
  let angle := dm.1
  let speed := dm.2
  let uvs := spdir2uv (ones_like speed) angle
  let us := uvs.1
  let vs := uvs.2
  let lons := meshgridX lon lat
  let lats := meshgridY lon lat
  let vmin := resolveVmin velocity_min
  let vmax := resolveVmax velocity_max speed
  let spg := np_clip (strideSlice sub speed) vmin vmax
  let ticks := ticksOf vmin vmax
  { vmin := vmin
    vmax := vmax
    angle := angle
    speed := speed
    us := us
    vs := vs
    lons := lons
    lats := lats
    lonsSub := strideSlice sub lons
    latsSub := strideSlice sub lats
    usSub := strideSlice sub us
    vsSub := strideSlice sub vs
    speedClippedG := spg
    speedClipped := spg.squeeze
    ticks := ticks
    tickLabels := ticks.map (Option.map fmt2)
    extent := extentOf lon lat
    effects := outputEffects output_file
    returnsHandle := output_file.isNone }

/-- One statement of `plot_radials` / `plot_common`, named so the claims
about control flow and resource release can talk about which statements run
before an exception aborts the call. -/
inductive PlotStep where
  | openDs
  | extractVars
  | closeDs
  | figureStep
  | maskStep
  | decomposeStep
  | unitStep
  | meshStep
  | boundsStep
  | clipStep
  | axesStep
  | titleStep
  | quiverStep
  | colorbarStep
  | markersStep
  | gridStep
  | extentStep
  | featuresStep
  | createDirStep
  | savefigStep
  | closeAllStep
  deriving DecidableEq

/-- Statement order of `plot_common` (source lines 113-208): the straight-line
body, with the three output-sink statements present exactly when an output
file was supplied.  There is no `try`/`except`/`finally` anywhere in the
function. -/
def plot_common_steps (hasOutput : Bool) : List PlotStep :=
  [PlotStep.figureStep, PlotStep.maskStep, PlotStep.decomposeStep, PlotStep.unitStep,
   PlotStep.meshStep, PlotStep.boundsStep, PlotStep.clipStep, PlotStep.axesStep,
   PlotStep.titleStep, PlotStep.quiverStep, PlotStep.colorbarStep, PlotStep.markersStep,
   PlotStep.gridStep, PlotStep.extentStep, PlotStep.featuresStep] ++
  (if hasOutput then [PlotStep.createDirStep, PlotStep.savefigStep, PlotStep.closeAllStep] else [])

/-- Statement order of `plot_radials` (source lines 29-61): open the dataset,
extract `u`/`v`/`time`/`lon`/`lat`, call `closing()`, then run `plot_common`.
No `try`/`finally` guards the close.  (`plot_totals` has the identical
structure.) -/
def plot_radials_steps (hasOutput : Bool) : List PlotStep :=
  [PlotStep.openDs, PlotStep.extractVars, PlotStep.closeDs] ++ plot_common_steps hasOutput

/-- Exception semantics of the straight-line Python body: execution runs the
statements in order and stops at the first one that raises, so the executed
statements are the longest prefix on which `fails` is `false`. -/
def runSteps (fails : PlotStep → Bool) (prog : List PlotStep) : List PlotStep :=
  prog.takeWhile (fun s => !fails s)

/-- Pointwise idempotence of numpy clipping, for any bounds (also when the
lower bound exceeds the upper one, and on NaN cells). -/
theorem clipV_idem (lo : ℝ) (hi x : Val) : clipV lo hi (clipV lo hi x) = clipV lo hi x := by
  cases x with
  | none => rfl
  | some y =>
    cases hi with
    | none => rfl
    | some h =>
      simp only [clipV]
      rcases le_total lo h with hlh | hhl
      · have h1 : lo ≤ min (max y lo) h := le_min (le_trans (le_max_right y lo) (le_refl _)) hlh
        have h2 : min (max y lo) h ≤ h := min_le_right _ _
        rw [max_eq_left h1, min_eq_left h2]
      · have h1 : min (max y lo) h = h := min_eq_right (le_trans hhl (le_max_right y lo))
        rw [h1, max_eq_right hhl, min_eq_right hhl]

/-- C8: clipping is idempotent — for every array and every pair of bounds,
applying the clip step a second time with the same `velocity_min` and
`velocity_max` to an already-clipped array yields an array identical (same
shape, same entries, NaN cells included) to the first clip's output. -/
theorem c8_clip_idempotent (g : Grid Val) (lo : ℝ) (hi : Val) :
    np_clip (np_clip g lo hi) lo hi = np_clip g lo hi := by
  simp only [np_clip]
  congr 1
  funext i j
  exact clipV_idem lo hi (g.val i j)

/-- C2: for every cell where `u` or `v` is NaN, the decomposer outputs
`angle`, `speed`, `us`, `vs` are all NaN at that cell — never silently zero
and never an error (the embedding is a total function) — while every cell
with both components finite is decomposed normally: `speed = sqrt(u² + v²)`,
`angle` the library's oceanographic direction, and `us`/`vs` the unit vector
re-encoding of that angle. -/
theorem c2_invalid_cells_masked (lon lat : List ℝ) (u v : Grid Val) (o : Option FsPath)
    (s : ℕ) (mn mx : Option ℝ) (i j : ℕ) :
    ((u.val i j = none ∨ v.val i j = none) →
      (plot_common lon lat u v o s mn mx).angle.val i j = none ∧
      (plot_common lon lat u v o s mn mx).speed.val i j = none ∧
      (plot_common lon lat u v o s mn mx).us.val i j = none ∧
      (plot_common lon lat u v o s mn mx).vs.val i j = none) ∧
    (∀ a b : ℝ, u.val i j = some a → v.val i j = some b →
      (plot_common lon lat u v o s mn mx).angle.val i j = some (angleDeg a b) ∧
      (plot_common lon lat u v o s mn mx).speed.val i j = some (Real.sqrt (a ^ 2 + b ^ 2)) ∧
      (plot_common lon lat u v o s mn mx).us.val i j =
        some (1 * Real.sin (angleDeg a b * (Real.pi / 180))) ∧
      (plot_common lon lat u v o s mn mx).vs.val i j =
        some (1 * Real.cos (angleDeg a b * (Real.pi / 180)))) := by
  constructor
  · intro h
    rcases hu : u.val i j with _ | a <;> rcases hv : v.val i j with _ | b
    · simp [plot_common, masked_invalid, uv2spdir, spdir2uv, ones_like, hu, hv]
    · simp [plot_common, masked_invalid, uv2spdir, spdir2uv, ones_like, hu, hv]
    · simp [plot_common, masked_invalid, uv2spdir, spdir2uv, ones_like, hu, hv]
    · rw [hu, hv] at h
      rcases h with h | h <;> simp at h
  · intro a b ha hb
    simp [plot_common, masked_invalid, uv2spdir, spdir2uv, ones_like, ha, hb]

/-- Witness for C2 at a concrete input: a 1 by 2 grid whose cell `(0,0)` has
a NaN `u` component is masked in all four decomposer outputs, while the fully
finite cell `(0,1)` gets its speed `sqrt (1² + 1²)`. -/
theorem c2_invalid_cells_masked_witness :
    (plot_common [0, 1] [0] (⟨1, 2, fun _ j => if j = 0 then none else some 1⟩ : Grid Val)
        (⟨1, 2, fun _ _ => some 1⟩ : Grid Val) none 2 none none).angle.val 0 0 = none ∧
    (plot_common [0, 1] [0] (⟨1, 2, fun _ j => if j = 0 then none else some 1⟩ : Grid Val)
        (⟨1, 2, fun _ _ => some 1⟩ : Grid Val) none 2 none none).speed.val 0 0 = none ∧
    (plot_common [0, 1] [0] (⟨1, 2, fun _ j => if j = 0 then none else some 1⟩ : Grid Val)
        (⟨1, 2, fun _ _ => some 1⟩ : Grid Val) none 2 none none).us.val 0 0 = none ∧
    (plot_common [0, 1] [0] (⟨1, 2, fun _ j => if j = 0 then none else some 1⟩ : Grid Val)
        (⟨1, 2, fun _ _ => some 1⟩ : Grid Val) none 2 none none).vs.val 0 0 = none ∧
    (plot_common [0, 1] [0] (⟨1, 2, fun _ j => if j = 0 then none else some 1⟩ : Grid Val)
        (⟨1, 2, fun _ _ => some 1⟩ : Grid Val) none 2 none none).speed.val 0 1 =
      some (Real.sqrt ((1 : ℝ) ^ 2 + 1 ^ 2)) := by
  have h1 := (c2_invalid_cells_masked [0, 1] [0]
      (⟨1, 2, fun _ j => if j = 0 then none else some 1⟩ : Grid Val)
      (⟨1, 2, fun _ _ => some 1⟩ : Grid Val) none 2 none none 0 0).1 (Or.inl (by simp))
  have h2 := ((c2_invalid_cells_masked [0, 1] [0]
      (⟨1, 2, fun _ j => if j = 0 then none else some 1⟩ : Grid Val)
      (⟨1, 2, fun _ _ => some 1⟩ : Grid Val) none 2 none none 0 1).2 1 1 (by simp) rfl).2.1
  exact ⟨h1.1, h1.2.1, h1.2.2.1, h1.2.2.2, h2⟩

/-- C7: for every valid (both components finite) cell, the reconstructed
unit vectors satisfy `us² + vs² = 1` exactly in the real model (hence within
any numeric tolerance), independently of the magnitude of `(u, v)`, because
they re-encode the angle with magnitude fixed at `1`. -/
theorem c7_unit_vector_norm (lon lat : List ℝ) (u v : Grid Val) (o : Option FsPath)
    (s : ℕ) (mn mx : Option ℝ) (i j : ℕ) (a b : ℝ)
    (hu : u.val i j = some a) (hv : v.val i j = some b) :
    ∃ x y : ℝ,
      (plot_common lon lat u v o s mn mx).us.val i j = some x ∧
      (plot_common lon lat u v o s mn mx).vs.val i j = some y ∧
      x ^ 2 + y ^ 2 = 1 := by
  refine ⟨Real.sin (angleDeg a b * (Real.pi / 180)),
         Real.cos (angleDeg a b * (Real.pi / 180)), ?_, ?_, ?_⟩
  · simp [plot_common, masked_invalid, uv2spdir, spdir2uv, ones_like, hu, hv]
  · simp [plot_common, masked_invalid, uv2spdir, spdir2uv, ones_like, hu, hv]
  · exact Real.sin_sq_add_cos_sq _

/-- Witness for C7 at a concrete input: the cell `(0,0)` of a 1 by 1 grid
with `u = 3`, `v = 4` yields a unit vector. -/
theorem c7_unit_vector_norm_witness :
    ∃ x y : ℝ,
      (plot_common [0] [0] (⟨1, 1, fun _ _ => some 3⟩ : Grid Val)
          (⟨1, 1, fun _ _ => some 4⟩ : Grid Val) none 2 none none).us.val 0 0 = some x ∧
      (plot_common [0] [0] (⟨1, 1, fun _ _ => some 3⟩ : Grid Val)
          (⟨1, 1, fun _ _ => some 4⟩ : Grid Val) none 2 none none).vs.val 0 0 = some y ∧
      x ^ 2 + y ^ 2 = 1 :=
  c7_unit_vector_norm [0] [0] _ _ none 2 none none 0 0 3 4 rfl rfl

/-- C5: with no output destination `plot_common` returns the live handle and
performs no filesystem or figure effect; with a destination it creates the
containing directory, rasterizes to the destination at exactly 150 DPI,
releases all figure resources, and returns no handle. -/
theorem c5_output_sink (lon lat : List ℝ) (u v : Grid Val) (s : ℕ) (mn mx : Option ℝ) :
    ((plot_common lon lat u v none s mn mx).returnsHandle = true ∧
     (plot_common lon lat u v none s mn mx).effects = []) ∧
    (∀ p : FsPath,
      (plot_common lon lat u v (some p) s mn mx).returnsHandle = false ∧
      (plot_common lon lat u v (some p) s mn mx).effects =
        [Effect.createDir p.dropLast, Effect.savefig p 150, Effect.closeAll]) :=
  ⟨⟨rfl, rfl⟩, fun _ => ⟨rfl, rfl⟩⟩

/-- Helper: an element that only occurs at or after a failing position of a
statement list is absent from the executed prefix. -/
theorem not_mem_takeWhile_stop {α : Type} (p : α → Bool) (a b : α) (l1 l2 : List α)
    (hb : p b = false) (ha : a ∉ l1) : a ∉ (l1 ++ b :: l2).takeWhile p := by
  induction l1 with
  | nil => simp [List.takeWhile_cons, hb]
  | cons c t ih =>
    have ha2 : a ∉ t := fun hmem => ha (List.mem_cons_of_mem _ hmem)
    have hac : a ≠ c := fun heq => ha (heq ▸ List.mem_cons_self _ _)
    simp only [List.cons_append, List.takeWhile_cons]
    cases hc : p c
    · simp
    · simp [hac, ih ha2]

/-- C6 (amended): the adapters close the dataset handle before the render
begins, so whenever the failing statement lies in the render, the close has
already run; but nothing guards the figure — with a file destination the
figure is released only when every earlier statement succeeds, and a failure
at (or before) the save skips the release. -/
theorem c6_resource_cleanup (fails : PlotStep → Bool) (b : Bool)
    (h1 : fails PlotStep.openDs = false) (h2 : fails PlotStep.extractVars = false)
    (h3 : fails PlotStep.closeDs = false) :
    PlotStep.closeDs ∈ runSteps fails (plot_radials_steps b) ∧
    ((∀ st, fails st = false) →
      PlotStep.closeAllStep ∈ runSteps fails (plot_common_steps true)) ∧
    (fails PlotStep.savefigStep = true →
      PlotStep.closeAllStep ∉ runSteps fails (plot_common_steps true)) := by
  refine ⟨?_, ?_, ?_⟩
  · simp [runSteps, plot_radials_steps, List.takeWhile_cons, h1, h2, h3]
  · intro hall
    simp [runSteps, plot_common_steps, List.takeWhile_cons, hall]
  · intro hs
    have hdec : plot_common_steps true =
        [PlotStep.figureStep, PlotStep.maskStep, PlotStep.decomposeStep, PlotStep.unitStep,
         PlotStep.meshStep, PlotStep.boundsStep, PlotStep.clipStep, PlotStep.axesStep,
         PlotStep.titleStep, PlotStep.quiverStep, PlotStep.colorbarStep, PlotStep.markersStep,
         PlotStep.gridStep, PlotStep.extentStep, PlotStep.featuresStep,
         PlotStep.createDirStep] ++ PlotStep.savefigStep :: [PlotStep.closeAllStep] := rfl
    rw [runSteps, hdec]
    exact not_mem_takeWhile_stop _ _ _ _ _ (by simp [hs]) (by decide)

/-- Witness for C6 at a concrete input: when only the quiver-drawing
statement raises, the dataset close statement of `plot_radials` has still been
executed. -/
theorem c6_resource_cleanup_witness :
    PlotStep.closeDs ∈
      runSteps (fun st => decide (st = PlotStep.quiverStep)) (plot_radials_steps true) :=
  (c6_resource_cleanup (fun st => decide (st = PlotStep.quiverStep)) true
    (by decide) (by decide) (by decide)).1

/-- Counterexample to C6 as stated: with a file destination supplied
(`hasOutput = true`) and a failure during plotting (the quiver statement
raises), the `plt.close('all')` statement is never executed, so the figure is
not released on that exit path. -/
theorem c6_figure_leak_counterexample :
    PlotStep.savefigStep ∈ plot_common_steps true ∧
    PlotStep.closeAllStep ∉
      runSteps (fun st => decide (st = PlotStep.quiverStep)) (plot_common_steps true) := by
  decide

/-- C1 (amended): when `velocity_max` is unset, the effective ceiling is
`np.nanmax(speed)`, with the fallback to the fixed default `15` triggered
exactly when that maximum is falsy in Python — i.e. exactly `0`, as for an
all-zero speed field.  A NaN maximum (all-invalid speed) is truthy, so no
fallback happens there: the effective ceiling is then NaN, not 15. -/
theorem c1_default_velocity_max (lon lat : List ℝ) (u v : Grid Val) (o : Option FsPath)
    (s : ℕ) :
    (nanmax (plot_common lon lat u v o s none none).speed = some 0 →
      (plot_common lon lat u v o s none none).vmax = some 15) ∧
    (∀ m : ℝ, m ≠ 0 → nanmax (plot_common lon lat u v o s none none).speed = some m →
      (plot_common lon lat u v o s none none).vmax = some m) ∧
    (nanmax (plot_common lon lat u v o s none none).speed = none →
      (plot_common lon lat u v o s none none).vmax = none) := by
  have hsp : (plot_common lon lat u v o s none none).speed = (uv2spdir u v).2 := rfl
  have hvm : (plot_common lon lat u v o s none none).vmax =
      resolveVmax none (uv2spdir u v).2 := rfl
  rw [hsp, hvm]
  refine ⟨?_, ?_, ?_⟩
  · intro h
    simp [resolveVmax, orNanmax, h]
  · intro m hm h
    simp [resolveVmax, orNanmax, h, hm]
  · intro h
    simp [resolveVmax, orNanmax, h]

/-- Witness for C1 at a concrete input: for an all-zero 1 by 1 vector field
(`u = v = 0`, so the speed field is all zeros) with `velocity_max` unset, the
effective ceiling is 15, not 0. -/
theorem c1_default_velocity_max_witness :
    (plot_common [0] [0] (⟨1, 1, fun _ _ => some 0⟩ : Grid Val)
        (⟨1, 1, fun _ _ => some 0⟩ : Grid Val) none 2 none none).vmax = some 15 := by
  apply (c1_default_velocity_max [0] [0]
      (⟨1, 1, fun _ _ => some 0⟩ : Grid Val) (⟨1, 1, fun _ _ => some 0⟩ : Grid Val) none 2).1
  have hz : Real.sqrt ((0 : ℝ) ^ 2 + 0 ^ 2) = 0 := by
    norm_num
  have hr1 : List.range 1 = [0] := rfl
  simp [plot_common, masked_invalid, uv2spdir, nanmax, Grid.validVals, hz, hr1,
    List.flatMap_cons, List.flatMap_nil, List.filterMap_cons, List.filterMap_nil]

/-- Counterexample to C1 as stated: for a 1 by 1 speed field whose only cell
is NaN (u and v both NaN), `np.nanmax` yields NaN, which is truthy in Python,
so the effective ceiling is NaN — the claimed fallback to `15` does not
happen. -/
theorem c1_nan_ceiling_counterexample :
    (plot_common [0] [0] (⟨1, 1, fun _ _ => none⟩ : Grid Val)
        (⟨1, 1, fun _ _ => none⟩ : Grid Val) none 2 none none).vmax = none ∧
    (none : Val) ≠ some (15 : ℝ) := by
  constructor
  · have hr1 : List.range 1 = [0] := rfl
    simp [plot_common, masked_invalid, uv2spdir, resolveVmax, orNanmax, nanmax, Grid.validVals,
      hr1, List.flatMap_cons, List.flatMap_nil, List.filterMap_cons, List.filterMap_nil]
  · simp

/-- Helper: `numpy.squeeze` never drops elements — the squeezed array has
exactly as many entries as the grid it came from. -/
theorem Grid.size_squeeze {α : Type} (g : Grid α) : g.squeeze.size = g.rows * g.cols := by
  unfold Grid.squeeze
  split_ifs with h1 h2 h3
  · simp [Arr.size, h1.1, h1.2]
  · simp [Arr.size, h2]
  · simp [Arr.size, h3]
  · simp [Arr.size]

/-- C3: for every speed field, stride at least 1, and effective bounds with
`velocity_min ≤ velocity_max`, every finite value of the clipped subsampled
speed lies within `[velocity_min, velocity_max]`; each finite subsampled cell
is pulled to the nearest bound (`min (max y vmin) vmax`, which is `y` itself
when already inside); and no value is dropped — the squeezed result keeps
exactly one entry per subsampled cell (NaN cells stay NaN rather than
becoming spurious values). -/
theorem c3_clip_bounds (lon lat : List ℝ) (u v : Grid Val) (o : Option FsPath)
    (s : ℕ) (mn mx : Option ℝ) (M : ℝ) (hs : 1 ≤ s)
    (hM : (plot_common lon lat u v o s mn mx).vmax = some M)
    (hle : (plot_common lon lat u v o s mn mx).vmin ≤ M) :
    (∀ i j x, (plot_common lon lat u v o s mn mx).speedClippedG.val i j = some x →
      (plot_common lon lat u v o s mn mx).vmin ≤ x ∧ x ≤ M) ∧
    (∀ i j y,
      (strideSlice s (plot_common lon lat u v o s mn mx).speed).val i j = some y →
      (plot_common lon lat u v o s mn mx).speedClippedG.val i j =
        some (min (max y ((plot_common lon lat u v o s mn mx).vmin)) M)) ∧
    (plot_common lon lat u v o s mn mx).speedClipped.size =
      (plot_common lon lat u v o s mn mx).speedClippedG.rows *
        (plot_common lon lat u v o s mn mx).speedClippedG.cols := by
  have hg : (plot_common lon lat u v o s mn mx).speedClippedG =
      np_clip (strideSlice s ((plot_common lon lat u v o s mn mx).speed))
        ((plot_common lon lat u v o s mn mx).vmin)
        ((plot_common lon lat u v o s mn mx).vmax) := rfl
  have hsq : (plot_common lon lat u v o s mn mx).speedClipped =
      ((plot_common lon lat u v o s mn mx).speedClippedG).squeeze := rfl
  refine ⟨?_, ?_, ?_⟩
  · intro i j x hx
    rw [hg, hM] at hx
    rcases hy : (strideSlice s ((plot_common lon lat u v o s mn mx).speed)).val i j with _ | y
    · rw [show (np_clip (strideSlice s ((plot_common lon lat u v o s mn mx).speed))
          ((plot_common lon lat u v o s mn mx).vmin) (some M)).val i j =
          clipV ((plot_common lon lat u v o s mn mx).vmin) (some M)
            ((strideSlice s ((plot_common lon lat u v o s mn mx).speed)).val i j) from rfl,
        hy] at hx
      simp [clipV] at hx
    · rw [show (np_clip (strideSlice s ((plot_common lon lat u v o s mn mx).speed))
          ((plot_common lon lat u v o s mn mx).vmin) (some M)).val i j =
          clipV ((plot_common lon lat u v o s mn mx).vmin) (some M)
            ((strideSlice s ((plot_common lon lat u v o s mn mx).speed)).val i j) from rfl,
        hy] at hx
      simp only [clipV, Option.some.injEq] at hx
      subst hx
      constructor
      · exact le_min (le_trans (le_max_right _ _) (le_refl _)) hle
      · exact min_le_right _ _
  · intro i j y hy
    rw [hg, hM]
    rw [show (np_clip (strideSlice s ((plot_common lon lat u v o s mn mx).speed))
        ((plot_common lon lat u v o s mn mx).vmin) (some M)).val i j =
        clipV ((plot_common lon lat u v o s mn mx).vmin) (some M)
          ((strideSlice s ((plot_common lon lat u v o s mn mx).speed)).val i j) from rfl, hy]
    rfl
  · rw [hsq]
    exact Grid.size_squeeze _

/-- Witness for C3 at a concrete input: a 1 by 1 field of speed 50 (u = 0,
v = 50) with bounds `velocity_min = 0`, `velocity_max = 10`, stride 1 — the
clipped cell is exactly 10 and no value is dropped. -/
theorem c3_clip_bounds_witness :
    (plot_common [0] [0] (⟨1, 1, fun _ _ => some 0⟩ : Grid Val)
        (⟨1, 1, fun _ _ => some 50⟩ : Grid Val) none 1 (some 0) (some 10)).speedClippedG.val 0 0 =
      some 10 ∧
    (plot_common [0] [0] (⟨1, 1, fun _ _ => some 0⟩ : Grid Val)
        (⟨1, 1, fun _ _ => some 50⟩ : Grid Val) none 1 (some 0) (some 10)).speedClipped.size =
      1 := by
  have hM : (plot_common [0] [0] (⟨1, 1, fun _ _ => some 0⟩ : Grid Val)
      (⟨1, 1, fun _ _ => some 50⟩ : Grid Val) none 1 (some 0) (some 10)).vmax = some 10 := by
    norm_num [plot_common, resolveVmax]
  have hvmin : (plot_common [0] [0] (⟨1, 1, fun _ _ => some 0⟩ : Grid Val)
      (⟨1, 1, fun _ _ => some 50⟩ : Grid Val) none 1 (some 0) (some 10)).vmin = 0 := by
    norm_num [plot_common, resolveVmin]
  have hle : (plot_common [0] [0] (⟨1, 1, fun _ _ => some 0⟩ : Grid Val)
      (⟨1, 1, fun _ _ => some 50⟩ : Grid Val) none 1 (some 0) (some 10)).vmin ≤ (10 : ℝ) := by
    rw [hvmin]
    norm_num
  have h := c3_clip_bounds [0] [0] (⟨1, 1, fun _ _ => some 0⟩ : Grid Val)
      (⟨1, 1, fun _ _ => some 50⟩ : Grid Val) none 1 (some 0) (some 10) 10 (le_refl 1) hM hle
  constructor
  · have hy : (strideSlice 1 ((plot_common [0] [0] (⟨1, 1, fun _ _ => some 0⟩ : Grid Val)
        (⟨1, 1, fun _ _ => some 50⟩ : Grid Val) none 1 (some 0) (some 10)).speed)).val 0 0 =
        some (Real.sqrt ((0 : ℝ) ^ 2 + 50 ^ 2)) := rfl
    have h2 := h.2.1 0 0 _ hy
    rw [h2, hvmin]
    have hs50 : Real.sqrt ((0 : ℝ) ^ 2 + 50 ^ 2) = 50 := by
      rw [show ((0 : ℝ) ^ 2 + 50 ^ 2) = 50 ^ 2 by norm_num]
      exact Real.sqrt_sq (by norm_num)
    rw [hs50]
    norm_num
  · rw [h.2.2]
    rfl

/-- C4 (amended): for stride at least 1 and matching input shapes, the
subsampled `lon`, `lat`, `us`, `vs` grids and the clipped speed grid all have
the same shape `(⌈rows/sub⌉, ⌈cols/sub⌉)` and correspond index-for-index to
original grid position `(i*sub, j*sub)` — subsampling only thins density; and
provided neither subsampled dimension is a singleton, the final `.squeeze()`
is the identity, so the speed values fed to `ax.quiver` keep that identical
shape.  (When a subsampled dimension is 1 the squeeze drops it from the speed
array only — see the counterexample.) -/
theorem c4_subsample_alignment (lon lat : List ℝ) (u v : Grid Val) (o : Option FsPath)
    (s : ℕ) (mn mx : Option ℝ) (hs : 1 ≤ s)
    (hr : u.rows = lat.length) (hc : u.cols = lon.length)
    (hm : (u.rows + (s - 1)) / s ≠ 1) (hn : (u.cols + (s - 1)) / s ≠ 1) :
    ((plot_common lon lat u v o s mn mx).lonsSub.rows = (u.rows + (s - 1)) / s ∧
     (plot_common lon lat u v o s mn mx).lonsSub.cols = (u.cols + (s - 1)) / s) ∧
    ((plot_common lon lat u v o s mn mx).latsSub.rows = (u.rows + (s - 1)) / s ∧
     (plot_common lon lat u v o s mn mx).latsSub.cols = (u.cols + (s - 1)) / s) ∧
    ((plot_common lon lat u v o s mn mx).usSub.rows = (u.rows + (s - 1)) / s ∧
     (plot_common lon lat u v o s mn mx).usSub.cols = (u.cols + (s - 1)) / s) ∧
    ((plot_common lon lat u v o s mn mx).vsSub.rows = (u.rows + (s - 1)) / s ∧
     (plot_common lon lat u v o s mn mx).vsSub.cols = (u.cols + (s - 1)) / s) ∧
    ((plot_common lon lat u v o s mn mx).speedClippedG.rows = (u.rows + (s - 1)) / s ∧
     (plot_common lon lat u v o s mn mx).speedClippedG.cols = (u.cols + (s - 1)) / s) ∧
    (plot_common lon lat u v o s mn mx).speedClipped =
      Arr.mat ((plot_common lon lat u v o s mn mx).speedClippedG) ∧
    (∀ i j,
      (plot_common lon lat u v o s mn mx).lonsSub.val i j =
        (plot_common lon lat u v o s mn mx).lons.val (i * s) (j * s) ∧
      (plot_common lon lat u v o s mn mx).latsSub.val i j =
        (plot_common lon lat u v o s mn mx).lats.val (i * s) (j * s) ∧
      (plot_common lon lat u v o s mn mx).usSub.val i j =
        (plot_common lon lat u v o s mn mx).us.val (i * s) (j * s) ∧
      (plot_common lon lat u v o s mn mx).vsSub.val i j =
        (plot_common lon lat u v o s mn mx).vs.val (i * s) (j * s) ∧
      (plot_common lon lat u v o s mn mx).speedClippedG.val i j =
        clipV ((plot_common lon lat u v o s mn mx).vmin)
          ((plot_common lon lat u v o s mn mx).vmax)
          ((plot_common lon lat u v o s mn mx).speed.val (i * s) (j * s))) := by
  refine ⟨⟨?_, ?_⟩, ⟨?_, ?_⟩, ⟨rfl, rfl⟩, ⟨rfl, rfl⟩, ⟨rfl, rfl⟩, ?_,
    fun i j => ⟨rfl, rfl, rfl, rfl, rfl⟩⟩
  · rw [hr]
    rfl
  · rw [hc]
    rfl
  · rw [hr]
    rfl
  · rw [hc]
    rfl
  · have h1 : ¬((plot_common lon lat u v o s mn mx).speedClippedG.rows = 1 ∧
        (plot_common lon lat u v o s mn mx).speedClippedG.cols = 1) := fun hco => hm hco.1
    have h2 : ¬(plot_common lon lat u v o s mn mx).speedClippedG.rows = 1 := hm
    have h3 : ¬(plot_common lon lat u v o s mn mx).speedClippedG.cols = 1 := hn
    show ((plot_common lon lat u v o s mn mx).speedClippedG).squeeze = _
    unfold Grid.squeeze
    rw [if_neg h1, if_neg h2, if_neg h3]

/-- Witness for C4 at a concrete input: a 2 by 2 all-ones field, coordinates
of length 2, stride 1 — the squeeze is the identity, the subsampled grids
keep shape 2 by 2, and the subsampled unit vector at `(1,1)` is the original
one. -/
theorem c4_subsample_alignment_witness :
    (plot_common [0, 1] [0, 1] (⟨2, 2, fun _ _ => some 1⟩ : Grid Val)
        (⟨2, 2, fun _ _ => some 1⟩ : Grid Val) none 1 none none).speedClipped =
      Arr.mat ((plot_common [0, 1] [0, 1] (⟨2, 2, fun _ _ => some 1⟩ : Grid Val)
        (⟨2, 2, fun _ _ => some 1⟩ : Grid Val) none 1 none none).speedClippedG) ∧
    (plot_common [0, 1] [0, 1] (⟨2, 2, fun _ _ => some 1⟩ : Grid Val)
        (⟨2, 2, fun _ _ => some 1⟩ : Grid Val) none 1 none none).lonsSub.rows = 2 ∧
    (plot_common [0, 1] [0, 1] (⟨2, 2, fun _ _ => some 1⟩ : Grid Val)
        (⟨2, 2, fun _ _ => some 1⟩ : Grid Val) none 1 none none).usSub.val 1 1 =
      (plot_common [0, 1] [0, 1] (⟨2, 2, fun _ _ => some 1⟩ : Grid Val)
        (⟨2, 2, fun _ _ => some 1⟩ : Grid Val) none 1 none none).us.val 1 1 := by
  have h := c4_subsample_alignment [0, 1] [0, 1] (⟨2, 2, fun _ _ => some 1⟩ : Grid Val)
      (⟨2, 2, fun _ _ => some 1⟩ : Grid Val) none 1 none none (le_refl 1) rfl rfl
      (by decide) (by decide)
  refine ⟨h.2.2.2.2.2.1, ?_, ?_⟩
  · have hA := h.1.1
    simpa using hA
  · have hG := (h.2.2.2.2.2.2 1 1).2.2.1
    simpa using hG

/-- Counterexample to C4 as stated: a 2 by 2 field with stride 2 subsamples
to a 1 by 1 grid; the `.squeeze()` applied only to the clipped speed
collapses it to a 0-d scalar (shape `[]`), while the subsampled coordinate
grids keep shape `[1, 1]` — the arrays fed to the arrow-drawing step do not
all have identical shapes. -/
theorem c4_shape_counterexample :
    (plot_common [0, 1] [0, 1] (⟨2, 2, fun _ _ => some 1⟩ : Grid Val)
        (⟨2, 2, fun _ _ => some 1⟩ : Grid Val) none 2 none none).speedClipped.shape =
      ([] : List ℕ) ∧
    [(plot_common [0, 1] [0, 1] (⟨2, 2, fun _ _ => some 1⟩ : Grid Val)
        (⟨2, 2, fun _ _ => some 1⟩ : Grid Val) none 2 none none).lonsSub.rows,
     (plot_common [0, 1] [0, 1] (⟨2, 2, fun _ _ => some 1⟩ : Grid Val)
        (⟨2, 2, fun _ _ => some 1⟩ : Grid Val) none 2 none none).lonsSub.cols] = [1, 1] ∧
    (plot_common [0, 1] [0, 1] (⟨2, 2, fun _ _ => some 1⟩ : Grid Val)
        (⟨2, 2, fun _ _ => some 1⟩ : Grid Val) none 2 none none).speedClipped.shape ≠
      [(plot_common [0, 1] [0, 1] (⟨2, 2, fun _ _ => some 1⟩ : Grid Val)
          (⟨2, 2, fun _ _ => some 1⟩ : Grid Val) none 2 none none).lonsSub.rows,
       (plot_common [0, 1] [0, 1] (⟨2, 2, fun _ _ => some 1⟩ : Grid Val)
          (⟨2, 2, fun _ _ => some 1⟩ : Grid Val) none 2 none none).lonsSub.cols] := by
  refine ⟨rfl, rfl, ?_⟩
  intro hcontra
  rw [show (plot_common [0, 1] [0, 1] (⟨2, 2, fun _ _ => some 1⟩ : Grid Val)
      (⟨2, 2, fun _ _ => some 1⟩ : Grid Val) none 2 none none).speedClipped.shape =
      ([] : List ℕ) from rfl] at hcontra
  simp at hcontra

/-- C9: whenever the effective ceiling is a number, the colorbar carries
exactly 5 evenly spaced tick values spanning the inclusive effective range
(`k`-th tick at `vmin + k * (vmax - vmin) / 4`, so the first is `vmin` and
the last `vmax`), and every tick is labeled with its two-decimal rendering. -/
theorem c9_colorbar_ticks (lon lat : List ℝ) (u v : Grid Val) (o : Option FsPath)
    (s : ℕ) (mn mx : Option ℝ) (b : ℝ)
    (hb : (plot_common lon lat u v o s mn mx).vmax = some b) :
    (plot_common lon lat u v o s mn mx).ticks.length = 5 ∧
    (plot_common lon lat u v o s mn mx).ticks.head? =
      some (some ((plot_common lon lat u v o s mn mx).vmin)) ∧
    (plot_common lon lat u v o s mn mx).ticks.getLast? = some (some b) ∧
    (∀ k : ℕ, k < 5 → (plot_common lon lat u v o s mn mx).ticks[k]? =
      some (some ((plot_common lon lat u v o s mn mx).vmin +
        (k : ℝ) * ((b - (plot_common lon lat u v o s mn mx).vmin) / 4)))) ∧
    (plot_common lon lat u v o s mn mx).tickLabels =
      (plot_common lon lat u v o s mn mx).ticks.map (Option.map fmt2) := by
  have key : (plot_common lon lat u v o s mn mx).ticks =
      (List.range 5).map (fun i : ℕ =>
        some ((plot_common lon lat u v o s mn mx).vmin +
          (i : ℝ) * ((b - (plot_common lon lat u v o s mn mx).vmin) / 4))) := by
    rw [show (plot_common lon lat u v o s mn mx).ticks =
        ticksOf ((plot_common lon lat u v o s mn mx).vmin)
          ((plot_common lon lat u v o s mn mx).vmax) from rfl, hb]
    rfl
  have hr5 : List.range 5 = [0, 1, 2, 3, 4] := rfl
  refine ⟨?_, ?_, ?_, ?_, rfl⟩
  · rw [key]
    simp
  · rw [key, hr5]
    simp
  · rw [key, hr5]
    simp only [List.map_cons, List.map_nil, List.getLast?_cons, List.getLast?_nil]
    norm_num
    ring
  · intro k hk
    interval_cases k <;> rw [key, hr5] <;> simp

/-- Helper: two-decimal formatting of the square root of two displays 1.41
(in hundredths: 141). -/
theorem fmt2_sqrt_two : fmt2 (Real.sqrt 2) = 141 := by
  have h0 : (0 : ℝ) ≤ Real.sqrt 2 := Real.sqrt_nonneg 2
  have hsq : Real.sqrt 2 ^ 2 = 2 := Real.sq_sqrt (by norm_num)
  have hlo : (1.405 : ℝ) ≤ Real.sqrt 2 := by
    nlinarith [sq_nonneg (Real.sqrt 2 - 1.405), sq_nonneg (Real.sqrt 2 + 1.405)]
  have hhi : Real.sqrt 2 < 1.415 := by
    nlinarith [sq_nonneg (Real.sqrt 2 - 1.415), sq_nonneg (Real.sqrt 2 + 1.415)]
  unfold fmt2
  rw [round_eq, Int.floor_eq_iff]
  constructor
  · push_cast
    linarith
  · push_cast
    linarith

/-- Witness for C9 at a concrete input: a 2 by 2 grid of `u = v = 1`
everywhere, stride 1 and no bounds given — the effective range is
`[0, sqrt 2]` and the colorbar has 5 ticks whose labels span 0.00 to 1.41. -/
theorem c9_colorbar_ticks_witness :
    (plot_common [0, 1] [0, 1] (⟨2, 2, fun _ _ => some 1⟩ : Grid Val)
        (⟨2, 2, fun _ _ => some 1⟩ : Grid Val) none 1 none none).ticks.length = 5 ∧
    (plot_common [0, 1] [0, 1] (⟨2, 2, fun _ _ => some 1⟩ : Grid Val)
        (⟨2, 2, fun _ _ => some 1⟩ : Grid Val) none 1 none none).tickLabels.head? =
      some (some 0) ∧
    (plot_common [0, 1] [0, 1] (⟨2, 2, fun _ _ => some 1⟩ : Grid Val)
        (⟨2, 2, fun _ _ => some 1⟩ : Grid Val) none 1 none none).tickLabels.getLast? =
      some (some 141) := by
  have hx : Real.sqrt ((1 : ℝ) ^ 2 + 1 ^ 2) = Real.sqrt 2 := by norm_num
  have hne : Real.sqrt 2 ≠ 0 := by positivity
  have hr2 : List.range 2 = [0, 1] := rfl
  have hvmax : (plot_common [0, 1] [0, 1] (⟨2, 2, fun _ _ => some 1⟩ : Grid Val)
      (⟨2, 2, fun _ _ => some 1⟩ : Grid Val) none 1 none none).vmax =
      some (Real.sqrt 2) := by
    simp [plot_common, masked_invalid, uv2spdir, resolveVmax, orNanmax, nanmax,
      Grid.validVals, hr2, hx, hne, List.flatMap_cons, List.flatMap_nil,
      List.filterMap_cons, List.filterMap_nil]
    norm_num
  have h := c9_colorbar_ticks [0, 1] [0, 1] (⟨2, 2, fun _ _ => some 1⟩ : Grid Val)
      (⟨2, 2, fun _ _ => some 1⟩ : Grid Val) none 1 none none (Real.sqrt 2) hvmax
  have hlab : (plot_common [0, 1] [0, 1] (⟨2, 2, fun _ _ => some 1⟩ : Grid Val)
      (⟨2, 2, fun _ _ => some 1⟩ : Grid Val) none 1 none none).tickLabels =
      ((plot_common [0, 1] [0, 1] (⟨2, 2, fun _ _ => some 1⟩ : Grid Val)
        (⟨2, 2, fun _ _ => some 1⟩ : Grid Val) none 1 none none).ticks).map
        (Option.map fmt2) := h.2.2.2.2
  refine ⟨h.1, ?_, ?_⟩
  · rw [hlab, List.head?_map, h.2.1]
    have hv : (plot_common [0, 1] [0, 1] (⟨2, 2, fun _ _ => some 1⟩ : Grid Val)
        (⟨2, 2, fun _ _ => some 1⟩ : Grid Val) none 1 none none).vmin = 0 := rfl
    rw [hv]
    simp [fmt2]
  · rw [hlab, List.getLast?_map, h.2.2.1]
    simp [fmt2_sqrt_two]

/-- C10: for every non-empty coordinate input the map extent is the data
bounding box of the full (unsubsampled) coordinate arrays expanded by
exactly 1 degree on all four sides, and it does not depend on the subsample
stride. -/
theorem c10_map_extent (lon lat : List ℝ) (u v : Grid Val) (o : Option FsPath)
    (s1 s2 : ℕ) (mn mx : Option ℝ) (a b : ℝ) (ltl ttl : List ℝ)
    (hlon : lon = a :: ltl) (hlat : lat = b :: ttl) :
    (plot_common lon lat u v o s1 mn mx).extent =
      some (ltl.foldl min a - 1, ltl.foldl max a + 1,
            ttl.foldl min b - 1, ttl.foldl max b + 1) ∧
    (plot_common lon lat u v o s1 mn mx).extent =
      (plot_common lon lat u v o s2 mn mx).extent := by
  subst hlon hlat
  exact ⟨rfl, rfl⟩

/-- Witness for C10 at a concrete input: coordinates `lon = [0, 2]`,
`lat = [1, 3]` give extent `(-1, 3, 0, 4)` for stride 1 and the same extent
for stride 3. -/
theorem c10_map_extent_witness :
    (plot_common [0, 2] [1, 3] (⟨1, 1, fun _ _ => some 1⟩ : Grid Val)
        (⟨1, 1, fun _ _ => some 1⟩ : Grid Val) none 1 none none).extent =
      some (-1, 3, 0, 4) ∧
    (plot_common [0, 2] [1, 3] (⟨1, 1, fun _ _ => some 1⟩ : Grid Val)
        (⟨1, 1, fun _ _ => some 1⟩ : Grid Val) none 1 none none).extent =
      (plot_common [0, 2] [1, 3] (⟨1, 1, fun _ _ => some 1⟩ : Grid Val)
        (⟨1, 1, fun _ _ => some 1⟩ : Grid Val) none 3 none none).extent := by
  have h := c10_map_extent [0, 2] [1, 3] (⟨1, 1, fun _ _ => some 1⟩ : Grid Val)
      (⟨1, 1, fun _ _ => some 1⟩ : Grid Val) none 1 3 none none 0 1 [2] [3] rfl rfl
  refine ⟨?_, h.2⟩
  rw [h.1]
  norm_num [List.foldl, min_def, max_def]

end
